import Mathlib

/-!
Verification development for the MOTOAI car-recommendation backend.

The embedding models the inference pipeline of `app.py` (input
normalisation, categorical encoding with fallback, the priority-rating
heuristic, the feature-vector builder, the argsort-based top-3 ranker and
the request error boundary) together with the trainer-side feature-column
order of `model.py`.

Modelling conventions:
* a trained `LabelEncoder` is its ordered list of classes (`classes_`);
  `transform` of a value is its index in that list and raises on an unseen
  value, `inverse_transform` of an index is the class at that index and
  raises when out of range.  Exceptions are modelled with `Except`.
* probabilities are rationals; `np.argsort` is modelled as a stable
  ascending sort of the index range (NumPy uses insertion sort on arrays of
  this size, which is stable), realised with `List.insertionSort` under the
  linear order `argRel`: ascending probability with the class index as the
  tie key.  The code then reverses the result and takes the first three.
* Python `round(x, 1)` is round-half-to-even at one decimal, modelled
  exactly on rationals by `rhe`.
* Python's `data.get(k) or default` treats both a missing key and an empty
  string as falsy; `pyOr` reproduces that.
-/

namespace Motoai

/-- A missing (`none`) or empty string is replaced by the default, mirroring
Python's `data.get(key) or default` idiom from `predict`. -/
def pyOr (o : Option String) (d : String) : String :=
  match o with
  | none => d
  | some s => if s = "" then d else s

/-- Whitespace-stripping of both ends of a string, modelling Python's
`str.strip` (over the character-list view of the string). -/
def pyStrip (s : String) : String :=
  String.mk (((s.data.dropWhile Char.isWhitespace).reverse.dropWhile
    Char.isWhitespace).reverse)

/-- Lower-casing of a string, modelling Python's `str.lower` on the ASCII
vocabulary used by the maps (over the character-list view of the string). -/
def pyLower (s : String) : String :=
  String.mk (s.data.map Char.toLower)

/-- Dictionary lookup with a default, modelling Python's `dict.get(k, d)`. -/
def lookupD {α : Type} (m : List (String × α)) (k : String) (d : α) : α :=
  (List.lookup k m).getD d

/-- BODY_MAP from app.py: UI body strings to canonical CSV values. -/
def BODY_MAP : List (String × String) :=
  [("suv", "suv"), ("sedan", "sedan"), ("hatchback", "hatchback"),
   ("hatch", "hatchback"), ("electric", "electric"), ("ev", "electric"),
   ("luxury", "luxury"), ("muv", "suv"), ("mpv", "suv")]

/-- FUEL_MAP from app.py: UI fuel strings to canonical CSV values. -/
def FUEL_MAP : List (String × String) :=
  [("petrol", "petrol"), ("diesel", "diesel"), ("electric", "electric"),
   ("cng", "cng"), ("hybrid", "petrol")]

/-- BUDGET_MAP from app.py: frontend budget strings and raw keys to
canonical budget buckets. -/
def BUDGET_MAP : List (String × String) :=
  [("Under ₹6 Lakh", "under_6l"), ("₹6–10 Lakh", "6l_10l"),
   ("₹10–15 Lakh", "10l_15l"), ("₹15–25 Lakh", "15l_25l"),
   ("₹25–50 Lakh", "25l_50l"), ("₹50 Lakh+", "25l_50l"),
   ("under_6l", "under_6l"), ("6l_10l", "6l_10l"), ("10l_15l", "10l_15l"),
   ("15l_25l", "15l_25l"), ("25l_50l", "25l_50l")]

/-- SEATING_MAP from app.py: seating strings to seat counts. -/
def SEATING_MAP : List (String × Nat) :=
  [("5 Seats", 5), ("7 Seats", 7), ("7+ Seats", 7), ("5", 5), ("7", 7)]

/-- The optional fields of the JSON body accepted by POST /predict. -/
structure FilterRequest where
  body : Option String
  fuel : Option String
  budget : Option String
  seating : Option String
  priority : Option String
deriving DecidableEq

/-- The normalised filters computed at the top of `predict`. -/
structure NormalizedFilters where
  body_val : String
  fuel_val : String
  budget_val : String
  seating_val : Nat
  priority : String
deriving DecidableEq

/-- The parse-and-normalise stage of `predict` (app.py lines 119-129):
defaulting via `or`, strip/lower, then table lookup with a default. -/
def normalize (req : FilterRequest) : NormalizedFilters :=
  let raw_body := pyLower (pyStrip (pyOr req.body "suv"))
  let raw_fuel := pyLower (pyStrip (pyOr req.fuel "petrol"))
  let raw_budget := pyStrip (pyOr req.budget "₹10–15 Lakh")
  let raw_seating := pyStrip (pyOr req.seating "5 Seats")
  let priority := pyLower (pyStrip (pyOr req.priority "value"))
  { body_val := lookupD BODY_MAP raw_body "suv"
    fuel_val := lookupD FUEL_MAP raw_fuel "petrol"
    budget_val := lookupD BUDGET_MAP raw_budget "10l_15l"
    seating_val := lookupD SEATING_MAP raw_seating 5
    priority := priority }

/-- One 4-tuple of priority ratings. -/
structure Ratings where
  safety : Nat
  comfort : Nat
  performance : Nat
  value : Nat
deriving DecidableEq

/-- The `priority_ratings` dictionary from `predict`. -/
def priority_ratings : List (String × Ratings) :=
  [("safety", ⟨9, 7, 7, 7⟩), ("comfort", ⟨7, 9, 7, 7⟩),
   ("performance", ⟨7, 7, 9, 7⟩), ("value", ⟨7, 7, 7, 9⟩),
   ("default", ⟨8, 8, 8, 8⟩)]

/-- The lookup `priority_ratings.get(priority, priority_ratings["default"])`. -/
def ratingsFor (p : String) : Ratings :=
  (List.lookup p priority_ratings).getD
    ((List.lookup "default" priority_ratings).getD ⟨8, 8, 8, 8⟩)

/-- A trained label encoder's ordered class list (`classes_`); `transform`
raises `ValueError` on a value outside it, otherwise returns its index. -/
def transform (classes : List String) (v : String) : Except String Nat :=
  if v ∈ classes then .ok (List.indexOf v classes) else .error "unseen label"

/-- `safe_encode` from app.py: the encoder's `transform`, with the
`ValueError` for an unknown label caught and turned into code 0. -/
def safe_encode (classes : List String) (v : String) : Nat :=
  match transform classes v with
  | .ok n => n
  | .error _ => 0

/-- A label encoder's `inverse_transform` on one index: the class at that
index, raising when the index is out of range. -/
def inverse_transform (classes : List String) (i : Nat) : Except String String :=
  if h : i < classes.length then .ok (classes[i]) else .error "unseen index"

/-- The trained encoders of the model bundle. -/
structure Encoders where
  body_type : List String
  fuel_type : List String
  budget : List String
  recommended_car : List String
deriving DecidableEq

/-- The 8-element feature vector built in `predict` (app.py lines 152-165),
in the exact order of the source. -/
def feature_vector (body_enc fuel_enc budget_enc seating_val : Nat)
    (ratings : Ratings) : List Nat :=
  [body_enc, fuel_enc, budget_enc, seating_val,
   ratings.safety, ratings.comfort, ratings.performance, ratings.value]

/-- The `feature_cols` list of model.py. -/
def feature_cols : List String :=
  ["body_type_enc", "fuel_type_enc", "budget_enc", "seating",
   "safety", "comfort", "performance", "value"]

/-- One row of the training CSV, with the columns model.py requires. -/
structure CsvRow where
  body_type : String
  fuel_type : String
  budget : String
  seating : Nat
  safety : Nat
  comfort : Nat
  performance : Nat
  value : Nat
deriving DecidableEq

/-- The value the trainer places in a named feature column for one CSV row:
`fit_transform` writes the class index for the `_enc` columns, the raw
numeric columns pass through (model.py lines 30-47). -/
def trainer_col_value (enc : Encoders) (row : CsvRow) : String → Nat
  | "body_type_enc" => List.indexOf row.body_type enc.body_type
  | "fuel_type_enc" => List.indexOf row.fuel_type enc.fuel_type
  | "budget_enc" => List.indexOf row.budget enc.budget
  | "seating" => row.seating
  | "safety" => row.safety
  | "comfort" => row.comfort
  | "performance" => row.performance
  | "value" => row.value
  | _ => 0

/-- One row of the trainer's feature matrix `X = df[feature_cols]`: the
row's values read off in the order of `feature_cols`. -/
def trainer_feature_row (enc : Encoders) (row : CsvRow) : List Nat :=
  feature_cols.map (trainer_col_value enc row)

/-- Round-half-to-even to an integer, Python's rounding mode for `round`. -/
def rhe (x : ℚ) : ℤ :=
  if x - ⌊x⌋ = 1 / 2 then (if ⌊x⌋ % 2 = 0 then ⌊x⌋ else ⌊x⌋ + 1)
  else round x

/-- The confidence of a probability: `round(p * 100, 1)` from app.py. -/
def roundConf (p : ℚ) : ℚ :=
  (rhe (p * 100 * 10) : ℚ) / 10

/-- The comparison underlying the model of `np.argsort`: ascending
probability, with the class index as tie key (the stability of the sort). -/
def argRel (p : List ℚ) (i j : Nat) : Prop :=
  p.getD i 0 < p.getD j 0 ∨ (p.getD i 0 = p.getD j 0 ∧ i ≤ j)

instance argRelDecidable (p : List ℚ) : DecidableRel (argRel p) :=
  fun i j => by unfold argRel; infer_instance

/-- Model of `np.argsort(proba)`: the indices of `proba` stably sorted by
ascending probability. -/
def argsort (p : List ℚ) : List Nat :=
  List.insertionSort (argRel p) (List.range p.length)

/-- Model of `np.argsort(proba)[::-1][:k]` from app.py line 169 (`k = 3`). -/
def topKIdx (p : List ℚ) (k : Nat) : List Nat :=
  ((argsort p).reverse).take k

/-- The decoding loop of app.py lines 172-175: for each selected index,
`inverse_transform` the car name and pair it with the rounded confidence. -/
def decodeTop (classes : List String) (proba : List ℚ) :
    List Nat → Except String (List (String × ℚ))
  | [] => .ok []
  | i :: is => do
    let name ← inverse_transform classes i
    let rest ← decodeTop classes proba is
    .ok ((name, roundConf (proba.getD i 0)) :: rest)

/-- The top-3 ranker of `predict`: select the three highest-probability
class indices and decode them to (car, confidence) pairs. -/
def top3_cars (classes : List String) (proba : List ℚ) :
    Except String (List (String × ℚ)) :=
  decodeTop classes proba (topKIdx proba 3)

/-- The `inputs` object echoed in a success response (app.py lines 183-189). -/
structure Inputs where
  body : String
  fuel : String
  budget : String
  seating : Nat
  priority : String
deriving DecidableEq

/-- The success response of `predict` (app.py lines 178-190). -/
structure SuccessResponse where
  recommended_car : String
  confidence : ℚ
  top3 : List (String × ℚ)
  inputs : Inputs
deriving DecidableEq

/-- The body of the `try` block of `predict`: normalise, pick ratings,
encode, build the feature vector, classify, rank, and build the response.
`top3_cars[0]` on an empty list raises, hence the error case. -/
def predictBody (enc : Encoders) (clf : List Nat → List ℚ)
    (req : FilterRequest) : Except String SuccessResponse :=
  let nf := normalize req
  let ratings := ratingsFor nf.priority
  let body_enc := safe_encode enc.body_type nf.body_val
  let fuel_enc := safe_encode enc.fuel_type nf.fuel_val
  let budget_enc := safe_encode enc.budget nf.budget_val
  let fv := feature_vector body_enc fuel_enc budget_enc nf.seating_val ratings
  let proba := clf fv
  do
    let cars ← top3_cars enc.recommended_car proba
    match cars with
    | [] => .error "list index out of range"
    | c :: _ =>
      .ok { recommended_car := c.1, confidence := c.2, top3 := cars,
            inputs := { body := nf.body_val, fuel := nf.fuel_val,
                        budget := nf.budget_val, seating := nf.seating_val,
                        priority := nf.priority } }

/-- A JSON response body: either the success payload or the structured
error object with status "error" and a message. -/
inductive RespBody where
  | success (r : SuccessResponse)
  | error (message : String)
deriving DecidableEq

/-- An HTTP response: status code plus JSON body. -/
structure HttpResponse where
  code : Nat
  body : RespBody
deriving DecidableEq

/-- Whether a status code signals success at the HTTP level. -/
def is2xx (c : Nat) : Prop :=
  200 ≤ c ∧ c ≤ 299

instance (c : Nat) : Decidable (is2xx c) := by unfold is2xx; infer_instance

/-- The whole `predict` route handler: the argument is the result of
parsing the request body (`request.get_json` may raise), the `try/except`
of app.py lines 116-196 converts any exception into the 500 error
response; a normal return is jsonified with status 200. -/
def predict_route (enc : Encoders) (clf : List Nat → List ℚ)
    (parsed : Except String FilterRequest) : HttpResponse :=
  match parsed.bind (predictBody enc clf) with
  | .ok r => ⟨200, .success r⟩
  | .error e => ⟨500, .error e⟩

/-! Helper lemmas about the ranking order, the rounding mode and the
decoding loop. -/

/-- The argsort comparison is total. -/
lemma argRel_total (p : List ℚ) : ∀ i j, argRel p i j ∨ argRel p j i := by
  intro i j
  rcases lt_trichotomy (p.getD i 0) (p.getD j 0) with h | h | h
  · exact Or.inl (Or.inl h)
  · rcases Nat.le_total i j with hij | hij
    · exact Or.inl (Or.inr ⟨h, hij⟩)
    · exact Or.inr (Or.inr ⟨h.symm, hij⟩)
  · exact Or.inr (Or.inl h)

/-- The argsort comparison is transitive. -/
lemma argRel_trans (p : List ℚ) :
    ∀ i j k, argRel p i j → argRel p j k → argRel p i k := by
  intro i j k hij hjk
  rcases hij with h1 | ⟨h1, h1n⟩ <;> rcases hjk with h2 | ⟨h2, h2n⟩
  · exact Or.inl (h1.trans h2)
  · exact Or.inl (lt_of_lt_of_le h1 (le_of_eq h2))
  · exact Or.inl (lt_of_le_of_lt (le_of_eq h1) h2)
  · exact Or.inr ⟨h1.trans h2, le_trans h1n h2n⟩

/-- The model of argsort produces a list sorted by the argsort comparison. -/
lemma argsort_sorted (p : List ℚ) : List.Sorted (argRel p) (argsort p) := by
  haveI : IsTotal Nat (argRel p) := ⟨argRel_total p⟩
  haveI : IsTrans Nat (argRel p) := ⟨argRel_trans p⟩
  exact List.sorted_insertionSort (argRel p) (List.range p.length)

/-- The model of argsort permutes the index range of the distribution. -/
lemma argsort_perm (p : List ℚ) : (argsort p).Perm (List.range p.length) :=
  List.perm_insertionSort _ _

/-- The selected index list has length `min k n`. -/
lemma topKIdx_length (p : List ℚ) (k : Nat) :
    (topKIdx p k).length = min k p.length := by
  simp [topKIdx, List.length_take, List.length_reverse,
    (argsort_perm p).length_eq, List.length_range]

/-- Every selected index is a valid index into the distribution. -/
lemma mem_topKIdx_lt (p : List ℚ) {i k : Nat} (h : i ∈ topKIdx p k) :
    i < p.length := by
  have h1 : i ∈ (argsort p).reverse := List.mem_of_mem_take h
  have h2 : i ∈ argsort p := List.mem_reverse.mp h1
  exact List.mem_range.mp ((argsort_perm p).mem_iff.mp h2)

/-- Along the selected index list, each later index relates to each earlier
index by the argsort comparison (the reversal flips the sort order). -/
lemma topKIdx_pairwise (p : List ℚ) (k : Nat) :
    (topKIdx p k).Pairwise (fun a b => argRel p b a) := by
  have hs : List.Pairwise (argRel p) (argsort p) := argsort_sorted p
  have hr : ((argsort p).reverse).Pairwise (fun a b => argRel p b a) :=
    List.pairwise_reverse.mpr hs
  exact List.Pairwise.sublist (List.take_sublist k _) hr

/-- Round-half-to-even never rounds below the floor. -/
lemma rhe_ge_floor (x : ℚ) : ⌊x⌋ ≤ rhe x := by
  unfold rhe
  split
  · split <;> omega
  · rw [round_eq]
    exact Int.floor_mono (by linarith)

/-- Round-half-to-even never rounds above the floor plus one. -/
lemma rhe_le_floor_succ (x : ℚ) : rhe x ≤ ⌊x⌋ + 1 := by
  unfold rhe
  split
  · split <;> omega
  · rw [round_eq]
    have h1 : x + 1 / 2 < ((⌊x⌋ + 2 : ℤ) : ℚ) := by
      have h0 := Int.lt_floor_add_one x
      push_cast
      linarith
    have h2 := Int.floor_lt.mpr h1
    omega

/-- Round-half-to-even is monotone. -/
lemma rhe_mono {x y : ℚ} (h : x ≤ y) : rhe x ≤ rhe y := by
  rcases eq_or_lt_of_le (Int.floor_mono h : ⌊x⌋ ≤ ⌊y⌋) with heq | hlt
  case inr =>
    have h1 := rhe_le_floor_succ x
    have h2 := rhe_ge_floor y
    omega
  case inl =>
    have heqQ : ((⌊x⌋ : ℤ) : ℚ) = ((⌊y⌋ : ℤ) : ℚ) := by exact_mod_cast heq
    by_cases hx : x - ⌊x⌋ = 1 / 2 <;> by_cases hy : y - ⌊y⌋ = 1 / 2
    · have hxy : x = y := by linarith
      rw [hxy]
    · have hy2 : 1 / 2 < y - ⌊y⌋ := lt_of_le_of_ne (by linarith) (Ne.symm hy)
      have h5 : ⌊y⌋ + 1 ≤ ⌊y + 1 / 2⌋ := Int.le_floor.mpr (by push_cast; linarith)
      have h6 := rhe_le_floor_succ x
      have h7 : rhe y = ⌊y + 1 / 2⌋ := by
        unfold rhe
        rw [if_neg hy, round_eq]
      omega
    · have hx2 : x - ⌊x⌋ < 1 / 2 := lt_of_le_of_ne (by linarith) hx
      have h5 : ⌊x + 1 / 2⌋ < ⌊x⌋ + 1 := Int.floor_lt.mpr (by push_cast; linarith)
      have h6 := rhe_ge_floor y
      have h7 : rhe x = ⌊x + 1 / 2⌋ := by
        unfold rhe
        rw [if_neg hx, round_eq]
      omega
    · have h7 : rhe x = round x := by
        unfold rhe
        rw [if_neg hx]
      have h8 : rhe y = round y := by
        unfold rhe
        rw [if_neg hy]
      rw [h7, h8, round_eq, round_eq]
      exact Int.floor_mono (by linarith)

/-- The rounded confidence is monotone in the probability. -/
lemma roundConf_mono {a b : ℚ} (h : a ≤ b) : roundConf a ≤ roundConf b := by
  unfold roundConf
  have h1 : rhe (a * 100 * 10) ≤ rhe (b * 100 * 10) := by
    apply rhe_mono
    have h2 : a * 100 ≤ b * 100 :=
      mul_le_mul_of_nonneg_right h (by norm_num)
    exact mul_le_mul_of_nonneg_right h2 (by norm_num)
  have h3 : ((rhe (a * 100 * 10) : ℤ) : ℚ) ≤ ((rhe (b * 100 * 10) : ℤ) : ℚ) :=
    Int.cast_le.mpr h1
  gcongr

/-- When every index is in range for the target vocabulary, the decoding
loop succeeds and decodes index by index. -/
lemma decodeTop_ok (classes : List String) (proba : List ℚ) :
    ∀ l : List Nat, (∀ i ∈ l, i < classes.length) →
      decodeTop classes proba l =
        .ok (l.map (fun i => (classes.getD i "", roundConf (proba.getD i 0))))
  | [], _ => rfl
  | i :: is, h => by
    have hi : i < classes.length := h i (List.mem_cons_self i is)
    have hrest := decodeTop_ok classes proba is
      (fun j hj => h j (List.mem_cons_of_mem i hj))
    simp only [decodeTop, inverse_transform, dif_pos hi, hrest, Bind.bind,
      Except.bind]
    rw [List.map_cons, List.getD_eq_getElem classes "" hi]

/-! Claim theorems. -/

/-- C3: for every categorical field and every value not present in that
field's trained vocabulary, `safe_encode` returns code 0 (it is a total
function, so it cannot raise). -/
theorem safe_encode_unseen_zero (classes : List String) (v : String)
    (h : v ∉ classes) : safe_encode classes v = 0 := by
  simp [safe_encode, transform, h]

/-- Witness for C3 at the concrete vocabulary of body types and the unseen
value "pickup". -/
theorem safe_encode_unseen_zero_witness :
    "pickup" ∉ ["electric", "hatchback", "luxury", "sedan", "suv"] ∧
      safe_encode ["electric", "hatchback", "luxury", "sedan", "suv"]
        "pickup" = 0 :=
  ⟨by decide, safe_encode_unseen_zero _ _ (by decide)⟩

/-- C7: for every categorical field and every value in that field's trained
vocabulary, decoding the code produced by encoding the value returns the
original value. -/
theorem decode_encode_id (classes : List String) (v : String)
    (h : v ∈ classes) :
    inverse_transform classes (safe_encode classes v) = .ok v := by
  have hlt : List.indexOf v classes < classes.length :=
    List.indexOf_lt_length.mpr h
  have h1 : safe_encode classes v = List.indexOf v classes := by
    simp [safe_encode, transform, h]
  rw [h1, inverse_transform, dif_pos hlt, List.getElem_indexOf hlt]

/-- Witness for C7 at the concrete vocabulary of fuel types and the known
value "petrol". -/
theorem decode_encode_id_witness :
    "petrol" ∈ ["cng", "diesel", "electric", "petrol"] ∧
      inverse_transform ["cng", "diesel", "electric", "petrol"]
        (safe_encode ["cng", "diesel", "electric", "petrol"] "petrol") =
        .ok "petrol" :=
  ⟨by decide, decode_encode_id _ _ (by decide)⟩

/-- C5: the priority heuristic is a pure function of the priority string:
each of the five named priorities yields exactly its fixed 4-tuple, and
every other string yields the default tuple (8,8,8,8). -/
theorem priority_ratings_spec :
    ratingsFor "safety" = ⟨9, 7, 7, 7⟩ ∧
    ratingsFor "comfort" = ⟨7, 9, 7, 7⟩ ∧
    ratingsFor "performance" = ⟨7, 7, 9, 7⟩ ∧
    ratingsFor "value" = ⟨7, 7, 7, 9⟩ ∧
    ratingsFor "default" = ⟨8, 8, 8, 8⟩ ∧
    ∀ s : String,
      s ∉ ["safety", "comfort", "performance", "value", "default"] →
      ratingsFor s = ⟨8, 8, 8, 8⟩ := by
  refine ⟨by decide, by decide, by decide, by decide, by decide, ?_⟩
  intro s hs
  simp only [List.mem_cons, List.not_mem_nil, or_false, not_or] at hs
  obtain ⟨h1, h2, h3, h4, h5⟩ := hs
  have hnone : List.lookup s priority_ratings = none := by
    simp [priority_ratings, List.lookup, beq_eq_false_iff_ne.mpr h1,
      beq_eq_false_iff_ne.mpr h2, beq_eq_false_iff_ne.mpr h3,
      beq_eq_false_iff_ne.mpr h4, beq_eq_false_iff_ne.mpr h5]
  rw [ratingsFor, hnone]
  decide

/-- Witness for C5 at the unnamed priority string "speed". -/
theorem priority_ratings_spec_witness :
    "speed" ∉ ["safety", "comfort", "performance", "value", "default"] ∧
      ratingsFor "speed" = ⟨8, 8, 8, 8⟩ :=
  ⟨by decide, priority_ratings_spec.2.2.2.2.2 "speed" (by decide)⟩

/-- C6: the input normalizer is total by construction; the empty request
and the all-blank request resolve entirely to the documented defaults, and
for every request a value missing its lookup table falls back to the
documented default of that field. -/
theorem normalizer_defaults :
    (normalize ⟨none, none, none, none, none⟩ =
      ⟨"suv", "petrol", "10l_15l", 5, "value"⟩) ∧
    (normalize ⟨some "", some "", some "", some "", some ""⟩ =
      ⟨"suv", "petrol", "10l_15l", 5, "value"⟩) ∧
    ∀ req : FilterRequest,
      (List.lookup (pyLower (pyStrip (pyOr req.body "suv"))) BODY_MAP =
          none → (normalize req).body_val = "suv") ∧
      (List.lookup (pyLower (pyStrip (pyOr req.fuel "petrol"))) FUEL_MAP =
          none → (normalize req).fuel_val = "petrol") ∧
      (List.lookup (pyStrip (pyOr req.budget "₹10–15 Lakh")) BUDGET_MAP =
          none → (normalize req).budget_val = "10l_15l") ∧
      (List.lookup (pyStrip (pyOr req.seating "5 Seats")) SEATING_MAP =
          none → (normalize req).seating_val = 5) := by
  refine ⟨by decide, by decide, ?_⟩
  intro req
  refine ⟨fun h => ?_, fun h => ?_, fun h => ?_, fun h => ?_⟩ <;>
    simp [normalize, lookupD, h]

/-- Witness for C6 at a request whose four filter values all miss their
lookup tables. -/
theorem normalizer_defaults_witness :
    (List.lookup (pyLower (pyStrip (pyOr (some "Pickup") "suv")))
        BODY_MAP = none) ∧
    (List.lookup (pyLower (pyStrip (pyOr (some "Hydrogen") "petrol")))
        FUEL_MAP = none) ∧
    (List.lookup (pyStrip (pyOr (some "cheap") "₹10–15 Lakh"))
        BUDGET_MAP = none) ∧
    (List.lookup (pyStrip (pyOr (some "9 Seats") "5 Seats"))
        SEATING_MAP = none) ∧
    (normalize ⟨some "Pickup", some "Hydrogen", some "cheap",
        some "9 Seats", some "Speed"⟩).body_val = "suv" ∧
    (normalize ⟨some "Pickup", some "Hydrogen", some "cheap",
        some "9 Seats", some "Speed"⟩).fuel_val = "petrol" ∧
    (normalize ⟨some "Pickup", some "Hydrogen", some "cheap",
        some "9 Seats", some "Speed"⟩).budget_val = "10l_15l" ∧
    (normalize ⟨some "Pickup", some "Hydrogen", some "cheap",
        some "9 Seats", some "Speed"⟩).seating_val = 5 :=
  ⟨by decide, by decide, by decide, by decide,
    (normalizer_defaults.2.2 _).1 (by decide),
    (normalizer_defaults.2.2 _).2.1 (by decide),
    (normalizer_defaults.2.2 _).2.2.1 (by decide),
    (normalizer_defaults.2.2 _).2.2.2 (by decide)⟩

/-- C2: the 8-element feature vector is ordered exactly [body_code,
fuel_code, budget_code, seating_val, safety, comfort, performance, value],
and that order equals the column order of the trainer's `feature_cols`
list: for a training row whose categorical values are in the fitted
vocabularies, the served feature vector built from the same values equals
the trainer's feature row. -/
theorem feature_order_matches_trainer (enc : Encoders) (row : CsvRow)
    (hb : row.body_type ∈ enc.body_type)
    (hf : row.fuel_type ∈ enc.fuel_type)
    (hbu : row.budget ∈ enc.budget) :
    feature_vector (safe_encode enc.body_type row.body_type)
        (safe_encode enc.fuel_type row.fuel_type)
        (safe_encode enc.budget row.budget) row.seating
        ⟨row.safety, row.comfort, row.performance, row.value⟩ =
      trainer_feature_row enc row ∧
    ∀ b f bu s r, feature_vector b f bu s r =
      [b, f, bu, s, r.safety, r.comfort, r.performance, r.value] := by
  constructor
  · simp [feature_vector, trainer_feature_row, feature_cols,
      trainer_col_value, safe_encode, transform, hb, hf, hbu]
  · intro b f bu s r
    rfl

/-- Witness for C2 at a concrete encoder bundle and training row. -/
theorem feature_order_matches_trainer_witness :
    "suv" ∈ ["electric", "hatchback", "luxury", "sedan", "suv"] ∧
    "petrol" ∈ ["cng", "diesel", "electric", "petrol"] ∧
    "10l_15l" ∈ ["10l_15l", "15l_25l", "25l_50l", "6l_10l", "under_6l"] ∧
    feature_vector
        (safe_encode ["electric", "hatchback", "luxury", "sedan", "suv"]
          "suv")
        (safe_encode ["cng", "diesel", "electric", "petrol"] "petrol")
        (safe_encode
          ["10l_15l", "15l_25l", "25l_50l", "6l_10l", "under_6l"]
          "10l_15l") 5 ⟨9, 7, 7, 7⟩ =
      trainer_feature_row
        ⟨["electric", "hatchback", "luxury", "sedan", "suv"],
         ["cng", "diesel", "electric", "petrol"],
         ["10l_15l", "15l_25l", "25l_50l", "6l_10l", "under_6l"],
         ["Alto", "City"]⟩
        ⟨"suv", "petrol", "10l_15l", 5, 9, 7, 7, 7⟩ :=
  ⟨by decide, by decide, by decide,
    (feature_order_matches_trainer
      ⟨["electric", "hatchback", "luxury", "sedan", "suv"],
       ["cng", "diesel", "electric", "petrol"],
       ["10l_15l", "15l_25l", "25l_50l", "6l_10l", "under_6l"],
       ["Alto", "City"]⟩
      ⟨"suv", "petrol", "10l_15l", 5, 9, 7, 7, 7⟩
      (by decide) (by decide) (by decide)).1⟩

/-- C8: the `predict` route always answers: every request yields either the
200 success response or the 500 structured error response, 500 is not a
2xx status, and in particular a malformed request body (a parse error)
yields the 500 error response with the error message. -/
theorem predict_route_error_boundary (enc : Encoders)
    (clf : List Nat → List ℚ) :
    (∀ parsed : Except String FilterRequest,
      ((predict_route enc clf parsed).code = 200 ∧
        ∃ r, (predict_route enc clf parsed).body = RespBody.success r) ∨
      ((predict_route enc clf parsed).code = 500 ∧
        ¬ is2xx (predict_route enc clf parsed).code ∧
        ∃ m, (predict_route enc clf parsed).body = RespBody.error m)) ∧
    ∀ e : String,
      predict_route enc clf (Except.error e) = ⟨500, RespBody.error e⟩ := by
  constructor
  · intro parsed
    cases hb : parsed.bind (predictBody enc clf) with
    | ok r =>
      left
      constructor
      · simp [predict_route, hb]
      · exact ⟨r, by simp [predict_route, hb]⟩
    | error e =>
      right
      refine ⟨by simp [predict_route, hb], ?_, e, by simp [predict_route, hb]⟩
      simp [predict_route, hb, is2xx]
  · intro e
    rfl

/-- C1 counterexample: on the uniform two-class distribution the ranked
index list is [1, 0], so equal-probability classes appear in descending,
not ascending, class-index order. -/
theorem ranker_tie_ascending_cex :
    topKIdx [mkRat 1 2, mkRat 1 2] 3 = [1, 0] ∧
      ¬ List.Pairwise
        (fun a b => [mkRat 1 2, mkRat 1 2].getD a 0 =
          [mkRat 1 2, mkRat 1 2].getD b 0 → a ≤ b)
        (topKIdx [mkRat 1 2, mkRat 1 2] 3) := by
  constructor
  · decide
  · decide

/-- C1 amended: whenever two classes have equal predicted probability, the
ranked output lists them in descending class-index order (the ascending
argsort is stable, and the subsequent reversal flips the tie order). -/
theorem ranker_tie_descending (p : List ℚ) :
    List.Pairwise (fun a b => p.getD a 0 = p.getD b 0 → b ≤ a)
      (topKIdx p 3) := by
  apply List.Pairwise.imp ?_ (topKIdx_pairwise p 3)
  intro a b hab heq
  rcases hab with h1 | ⟨h1, hle⟩
  · rw [heq] at h1
    exact absurd h1 (lt_irrefl _)
  · exact hle

/-- C4: whenever the distribution indexes into the target vocabulary, the
top-K ranker succeeds, its output is sorted by non-increasing confidence,
and its length is `min 3 n`; in particular fewer than 3 classes yield all
of them rather than an error. -/
theorem top3_sorted_length (classes : List String) (p : List ℚ)
    (h : p.length ≤ classes.length) :
    ∃ cars, top3_cars classes p = .ok cars ∧
      cars.Pairwise (fun a b => b.2 ≤ a.2) ∧
      cars.length = min 3 p.length := by
  refine ⟨(topKIdx p 3).map
    (fun i => (classes.getD i "", roundConf (p.getD i 0))), ?_, ?_, ?_⟩
  · apply decodeTop_ok
    intro i hi
    exact lt_of_lt_of_le (mem_topKIdx_lt p hi) h
  · refine List.Pairwise.map _ (fun a b hab => ?_) (topKIdx_pairwise p 3)
    rcases hab with h1 | ⟨h1, _⟩
    · exact roundConf_mono h1.le
    · exact roundConf_mono h1.le
  · rw [List.length_map, topKIdx_length]

/-- Witness for C4 at a concrete two-class distribution: with fewer than 3
classes, both are returned, sorted. -/
theorem top3_sorted_length_witness :
    ([mkRat 1 4, mkRat 3 4] : List ℚ).length ≤
      (["Alto", "City"] : List String).length ∧
    ∃ cars, top3_cars ["Alto", "City"] [mkRat 1 4, mkRat 3 4] = .ok cars ∧
      cars.Pairwise (fun a b => b.2 ≤ a.2) ∧
      cars.length = min 3 ([mkRat 1 4, mkRat 3 4] : List ℚ).length :=
  ⟨by decide, top3_sorted_length _ _ (by decide)⟩

/-- C9: every success response echoes the normalized filter values (the
post-lookup body, fuel and budget values, the integer seating value, and
the lowercased trimmed priority), not the raw strings of the request. -/
theorem response_inputs_normalized (enc : Encoders)
    (clf : List Nat → List ℚ) (req : FilterRequest)
    (resp : SuccessResponse) (h : predictBody enc clf req = .ok resp) :
    resp.inputs = ⟨(normalize req).body_val, (normalize req).fuel_val,
      (normalize req).budget_val, (normalize req).seating_val,
      (normalize req).priority⟩ ∧
    (normalize req).priority = pyLower (pyStrip (pyOr req.priority "value")) := by
  refine ⟨?_, rfl⟩
  simp only [predictBody] at h
  cases hc : top3_cars enc.recommended_car
      (clf (feature_vector (safe_encode enc.body_type (normalize req).body_val)
        (safe_encode enc.fuel_type (normalize req).fuel_val)
        (safe_encode enc.budget (normalize req).budget_val)
        (normalize req).seating_val (ratingsFor (normalize req).priority))) with
  | error e =>
    rw [hc] at h
    simp [Bind.bind, Except.bind] at h
  | ok cars =>
    rw [hc] at h
    simp only [Bind.bind, Except.bind] at h
    cases cars with
    | nil => simp at h
    | cons c rest =>
      rw [Except.ok.injEq] at h
      rw [← h]

/-- Witness for C9: a full end-to-end run on the empty request with a
concrete bundle and classifier. -/
theorem response_inputs_normalized_witness :
    (predictBody
        ⟨["electric", "hatchback", "luxury", "sedan", "suv"],
         ["cng", "diesel", "electric", "petrol"],
         ["10l_15l", "15l_25l", "25l_50l", "6l_10l", "under_6l"],
         ["Alto", "City"]⟩
        (fun _ => [0, 1]) ⟨none, none, none, none, none⟩ =
      .ok ⟨"City", roundConf 1,
        [("City", roundConf 1), ("Alto", roundConf 0)],
        ⟨"suv", "petrol", "10l_15l", 5, "value"⟩⟩) ∧
    (⟨"City", roundConf 1, [("City", roundConf 1), ("Alto", roundConf 0)],
        ⟨"suv", "petrol", "10l_15l", 5, "value"⟩⟩ :
          SuccessResponse).inputs =
      ⟨(normalize ⟨none, none, none, none, none⟩).body_val,
       (normalize ⟨none, none, none, none, none⟩).fuel_val,
       (normalize ⟨none, none, none, none, none⟩).budget_val,
       (normalize ⟨none, none, none, none, none⟩).seating_val,
       (normalize ⟨none, none, none, none, none⟩).priority⟩ ∧
    (normalize ⟨none, none, none, none, none⟩).priority =
      pyLower (pyStrip (pyOr (⟨none, none, none, none, none⟩ :
        FilterRequest).priority "value")) :=
  have hW : predictBody
      ⟨["electric", "hatchback", "luxury", "sedan", "suv"],
       ["cng", "diesel", "electric", "petrol"],
       ["10l_15l", "15l_25l", "25l_50l", "6l_10l", "under_6l"],
       ["Alto", "City"]⟩
      (fun _ => [0, 1]) ⟨none, none, none, none, none⟩ =
      .ok ⟨"City", roundConf 1,
        [("City", roundConf 1), ("Alto", roundConf 0)],
        ⟨"suv", "petrol", "10l_15l", 5, "value"⟩⟩ := rfl
  ⟨hW, response_inputs_normalized _ _ _ _ hW⟩

/-- C10: in every success response, the top-level recommended car and
confidence equal the car and confidence of the first element of top3. -/
theorem recommended_equals_top3_head (enc : Encoders)
    (clf : List Nat → List ℚ) (req : FilterRequest)
    (resp : SuccessResponse) (h : predictBody enc clf req = .ok resp) :
    resp.top3.head? = some (resp.recommended_car, resp.confidence) := by
  simp only [predictBody] at h
  cases hc : top3_cars enc.recommended_car
      (clf (feature_vector (safe_encode enc.body_type (normalize req).body_val)
        (safe_encode enc.fuel_type (normalize req).fuel_val)
        (safe_encode enc.budget (normalize req).budget_val)
        (normalize req).seating_val (ratingsFor (normalize req).priority))) with
  | error e =>
    rw [hc] at h
    simp [Bind.bind, Except.bind] at h
  | ok cars =>
    rw [hc] at h
    simp only [Bind.bind, Except.bind] at h
    cases cars with
    | nil => simp at h
    | cons c rest =>
      rw [Except.ok.injEq] at h
      rw [← h]
      simp

/-- Witness for C10: a full end-to-end run on a request exercising the
trimming, lower-casing and remapping paths. -/
theorem recommended_equals_top3_head_witness :
    (predictBody
        ⟨["electric", "hatchback", "luxury", "sedan", "suv"],
         ["cng", "diesel", "electric", "petrol"],
         ["10l_15l", "15l_25l", "25l_50l", "6l_10l", "under_6l"],
         ["Alto", "City"]⟩
        (fun _ => [0, 1])
        ⟨some "  SEDAN ", some "Hybrid", some "₹50 Lakh+", some "7 Seats",
         some "Comfort"⟩ =
      .ok ⟨"City", roundConf 1,
        [("City", roundConf 1), ("Alto", roundConf 0)],
        ⟨"sedan", "petrol", "25l_50l", 7, "comfort"⟩⟩) ∧
    (⟨"City", roundConf 1, [("City", roundConf 1), ("Alto", roundConf 0)],
        ⟨"sedan", "petrol", "25l_50l", 7, "comfort"⟩⟩ :
          SuccessResponse).top3.head? =
      some ((⟨"City", roundConf 1,
        [("City", roundConf 1), ("Alto", roundConf 0)],
        ⟨"sedan", "petrol", "25l_50l", 7, "comfort"⟩⟩ :
          SuccessResponse).recommended_car,
        (⟨"City", roundConf 1,
        [("City", roundConf 1), ("Alto", roundConf 0)],
        ⟨"sedan", "petrol", "25l_50l", 7, "comfort"⟩⟩ :
          SuccessResponse).confidence) :=
  have hW : predictBody
      ⟨["electric", "hatchback", "luxury", "sedan", "suv"],
       ["cng", "diesel", "electric", "petrol"],
       ["10l_15l", "15l_25l", "25l_50l", "6l_10l", "under_6l"],
       ["Alto", "City"]⟩
      (fun _ => [0, 1])
      ⟨some "  SEDAN ", some "Hybrid", some "₹50 Lakh+", some "7 Seats",
       some "Comfort"⟩ =
      .ok ⟨"City", roundConf 1,
        [("City", roundConf 1), ("Alto", roundConf 0)],
        ⟨"sedan", "petrol", "25l_50l", 7, "comfort"⟩⟩ := rfl
  ⟨hW, recommended_equals_top3_head _ _ _ _ hW⟩

end Motoai
